import Mathlib

/-!
Verification of the agentic-enterprise coordination layer: a shallow
embedding of the Python sources (shared state store, audit trail,
governance engine, conflict engine, orchestrator) and theorems settling
the spec's claims against it.

Modelling conventions, used throughout:
* `datetime.now()` is an abstract clock value of type `Nat`, passed
  explicitly to every operation that reads the clock; `timedelta(hours=h)`
  adds `h` to that clock.
* Python floats that hold money, confidence scores or usage values are
  modelled as exact rationals (`ℚ`).
* Python dicts that are keyed containers are modelled as insertion-ordered
  association lists with overwrite-on-insert, matching dict semantics
  (Python 3.7+ dicts preserve insertion order).
* Python string-keyed ids such as "MEM-20240101-000007" are determined by
  the counter component for a fixed date, so they are modelled as the
  counter (`Nat`).
* Dict truthiness is modelled explicitly where the source tests a value
  with `if x:` (zero, `None`, empty string and empty list are falsy).
* Callback registries (observers whose exceptions are swallowed) have no
  effect on any state the claims mention and are omitted from the state.
-/

namespace AgenticEnterprise

/-- Primitive values that appear in the duck-typed `content`/`details`
dictionaries of the Python data model. -/
inductive PyVal where
  | str (s : String)
  | num (q : ℚ)
  | bool (b : Bool)
  | none
deriving DecidableEq, Repr

/-- Lookup in an insertion-ordered association list, Python `d.get(k)`. -/
def alistGet? [DecidableEq κ] (k : κ) : List (κ × α) → Option α
  | [] => Option.none
  | (k', v') :: rest => if k' = k then some v' else alistGet? k rest

/-- Overwrite-or-append, Python `d[k] = v` on a dict. -/
def alistUpdate [DecidableEq κ] (k : κ) (v : α) : List (κ × α) → List (κ × α)
  | [] => [(k, v)]
  | (k', v') :: rest => if k' = k then (k, v) :: rest else (k', v') :: alistUpdate k v rest

/-- Append `v` to the list stored at `k`, creating the group at the end if
`k` is new: the grouping idiom `if k not in d: d[k] = []; d[k].append(v)`. -/
def alistAppendGroup [DecidableEq κ] (k : κ) (v : α) : List (κ × List α) → List (κ × List α)
  | [] => [(k, [v])]
  | (k', vs) :: rest =>
      if k' = k then (k, vs ++ [v]) :: rest else (k', vs) :: alistAppendGroup k v rest

/-- All-occurrences string replacement on the character list, Python
`s.replace(pat, rep)` (non-overlapping, left to right). -/
def replaceChars (pat rep : List Char) : List Char → List Char
  | [] => []
  | c :: cs =>
      if pat ≠ [] ∧ (c :: cs).take pat.length = pat then
        rep ++ replaceChars pat rep ((c :: cs).drop pat.length)
      else
        c :: replaceChars pat rep cs
termination_by l => l.length
decreasing_by
  · simp only [List.length_drop, List.length_cons]
    have hp : pat.length ≠ 0 := fun h => by
      rcases ‹pat ≠ [] ∧ _› with ⟨h1, _⟩
      exact h1 (List.length_eq_zero.mp h)
    omega
  · simp

/-- Python `s.replace(pat, rep)`. -/
def strReplace (s pat rep : String) : String :=
  ⟨replaceChars pat.data rep.data s.data⟩

/-! ## src/agents/base_agent.py — the structured worker output

These types are defined first because stored memory entries can carry a
worker-output payload. -/

/-- A recommendation record, `BaseAgent._format_recommendation`. -/
structure Recommendation where
  title : String
  description : String
  expected_impact : String
  action_items : List String
deriving DecidableEq, Repr

/-- Dataclass `AgentOutput` (base_agent.py); the `__post_init__` `None`
defaults for the three list fields are already applied. -/
structure AgentOutput where
  agent_name : String
  task_id : String
  recommendations : List Recommendation
  confidence : ℚ
  citations : List String
  what_would_change_mind : List String
  budget_impact : Option ℚ
  headcount_impact : Option Int
  timeline_days : Option Nat
  risks : List String
  dependencies : List String
deriving DecidableEq, Repr

/-- The dictionary `CEOOrchestrator._route_tasks` builds from an
`AgentOutput` (same keys, same values). -/
structure WorkerOutputDict where
  agent_name : String
  task_id : String
  recommendations : List Recommendation
  confidence : ℚ
  what_would_change_mind : List String
  citations : List String
  budget_impact : Option ℚ
  headcount_impact : Option Int
  timeline_days : Option Nat
  risks : List String
  dependencies : List String
deriving DecidableEq, Repr

/-- The field-for-field dict conversion at ceo_orchestrator.py:287. -/
def AgentOutput.toOutputDict (o : AgentOutput) : WorkerOutputDict :=
  { agent_name := o.agent_name, task_id := o.task_id,
    recommendations := o.recommendations, confidence := o.confidence,
    what_would_change_mind := o.what_would_change_mind, citations := o.citations,
    budget_impact := o.budget_impact, headcount_impact := o.headcount_impact,
    timeline_days := o.timeline_days, risks := o.risks,
    dependencies := o.dependencies }

/-! ## src/infrastructure/shared_memory.py -/

/-- Enum `MemoryType` (shared_memory.py). -/
inductive MemoryType where
  | goal | policy | constraint | agent_output | decision | alert | context
deriving DecidableEq, Repr

/-- The string payload of each `MemoryType` member. -/
def MemoryType.value : MemoryType → String
  | .goal => "goal"
  | .policy => "policy"
  | .constraint => "constraint"
  | .agent_output => "agent_output"
  | .decision => "decision"
  | .alert => "alert"
  | .context => "context"

/-- Enum `Priority` (shared_memory.py). -/
inductive Priority where
  | low | medium | high | critical
deriving DecidableEq, Repr

/-- The string payload of each `Priority` member; `query` compares these
strings, so the payload matters. -/
def Priority.value : Priority → String
  | .low => "low"
  | .medium => "medium"
  | .high => "high"
  | .critical => "critical"

/-- The priority ordering the spec states for query filtering:
low < medium < high < critical. -/
def Priority.rank : Priority → Nat
  | .low => 0
  | .medium => 1
  | .high => 2
  | .critical => 3

/-- Content payload of a memory entry: the source stores either a
string-keyed dictionary of primitive values
(goal/constraint/alert/context payloads) or a whole worker-output
dictionary (`_route_tasks`); `Dict[str, Any]` is modelled as this closed
set of payload variants. -/
inductive Content where
  | fields (pairs : List (String × PyVal))
  | agentOutput (d : WorkerOutputDict)
deriving DecidableEq, Repr

/-- Dataclass `MemoryEntry` (shared_memory.py). -/
structure MemoryEntry where
  id : Nat
  type : MemoryType
  source : String
  content : Content
  timestamp : Nat
  priority : Priority
  tags : List String
  references : List String
  expires_at : Option Nat
deriving DecidableEq, Repr

/-- Dataclass `Constraint` (shared_memory.py). -/
structure Constraint where
  id : String
  category : String
  description : String
  limit_value : ℚ
  current_usage : ℚ
  unit : String
  hard_limit : Bool
  owner : String
deriving DecidableEq, Repr

/-- Dataclass `CompanyGoal` (shared_memory.py); key results kept as opaque
content pairs. -/
structure CompanyGoal where
  id : String
  description : String
  target_value : ℚ
  current_value : ℚ
  unit : String
  deadline : Nat
  owner : String
  status : String
  associated_agents : List String
  key_results : List Content
deriving DecidableEq, Repr

/-- Class `SharedMemory`: `_entries` is a dict keyed by the generated id;
ids are distinct (the counter strictly increases), so the dict is the
insertion-ordered list of entries. -/
structure SharedMemory where
  entries : List MemoryEntry
  goals : List (String × CompanyGoal)
  constraints : List (String × Constraint)
  counter : Nat
deriving DecidableEq, Repr

/-- A fresh store, `SharedMemory.__init__`. -/
def SharedMemory.empty : SharedMemory :=
  { entries := [], goals := [], constraints := [], counter := 0 }

/-- Method `SharedMemory.store`: generates the next id, builds the entry and
appends it. `expires_in_hours` is tested with `if expires_in_hours:`, so
`0` behaves like `None`. Returns the new state and the new entry's id. -/
def SharedMemory.store (m : SharedMemory) (now : Nat) (type : MemoryType) (source : String)
    (content : Content) (priority : Priority) (tags : List String)
    (references : List String) (expires_in_hours : Option Nat) : SharedMemory × Nat :=
  let counter' := m.counter + 1
  let expires : Option Nat :=
    match expires_in_hours with
    | Option.none => Option.none
    | some h => if h = 0 then Option.none else some (now + h)
  let entry : MemoryEntry :=
    { id := counter', type := type, source := source, content := content,
      timestamp := now, priority := priority, tags := tags,
      references := references, expires_at := expires }
  ({ m with entries := m.entries ++ [entry], counter := counter' }, counter')

/-- Filter predicate of `SharedMemory.query`: an entry is kept when it is
not expired and passes every supplied filter. The `min_priority` filter
compares the enum payload strings with `<` (the source reads
`entry.priority.value < min_priority.value`), and the `source`/`tags`
filters are skipped for falsy values, exactly as `if source and ...` and
`if tags and ...` behave. -/
def MemoryEntry.matchesQuery (e : MemoryEntry) (now : Nat) (type : Option MemoryType)
    (source : Option String) (tags : Option (List String)) (min_priority : Option Priority)
    (since : Option Nat) : Bool :=
  (match e.expires_at with
   | some t => ¬ (t < now)
   | Option.none => true)
  && (match type with
      | some t => e.type = t
      | Option.none => true)
  && (match source with
      | some s => s.isEmpty || e.source = s
      | Option.none => true)
  && (match tags with
      | some ts => ts.all (fun t => e.tags.contains t)
      | Option.none => true)
  && (match min_priority with
      | some p => ¬ (e.priority.value < p.value)
      | Option.none => true)
  && (match since with
      | some s => ¬ (e.timestamp < s)
      | Option.none => true)

/-- Stable descending insertion by timestamp: an element inserted later
goes after earlier elements with the same timestamp, matching Python's
stable `sorted(..., reverse=True)`. -/
def insertByTimestampDesc (a : MemoryEntry) : List MemoryEntry → List MemoryEntry
  | [] => [a]
  | b :: l => if b.timestamp < a.timestamp then a :: b :: l else b :: insertByTimestampDesc a l

/-- Sorted newest-first, `sorted(results, key=lambda e: e.timestamp, reverse=True)`. -/
def sortByTimestampDesc (l : List MemoryEntry) : List MemoryEntry :=
  l.foldl (fun acc a => insertByTimestampDesc a acc) []

/-- Method `SharedMemory.query`: filter the entries in insertion order,
then sort newest-first. -/
def SharedMemory.query (m : SharedMemory) (now : Nat) (type : Option MemoryType)
    (source : Option String) (tags : Option (List String)) (min_priority : Option Priority)
    (since : Option Nat) : List MemoryEntry :=
  sortByTimestampDesc
    (m.entries.filter (fun e => e.matchesQuery now type source tags min_priority since))

/-- Method `SharedMemory.add_constraint`: index the constraint by id and
store a CONSTRAINT entry describing it. -/
def SharedMemory.add_constraint (m : SharedMemory) (now : Nat) (c : Constraint) : SharedMemory :=
  let m₁ : SharedMemory := { m with constraints := alistUpdate c.id c m.constraints }
  (m₁.store now MemoryType.constraint "system"
      (Content.fields
        [("constraint_id", PyVal.str c.id), ("category", PyVal.str c.category),
         ("description", PyVal.str c.description), ("limit", PyVal.num c.limit_value),
         ("current", PyVal.num c.current_usage), ("unit", PyVal.str c.unit),
         ("hard_limit", PyVal.bool c.hard_limit)])
      (if c.hard_limit then Priority.high else Priority.medium)
      ["constraint", c.category] [] Option.none).1

/-- Method `SharedMemory.get_constraint`. -/
def SharedMemory.get_constraint (m : SharedMemory) (constraint_id : String) : Option Constraint :=
  alistGet? constraint_id m.constraints

/-- Method `SharedMemory.update_constraint_usage`: an unknown id returns
`True`; otherwise `constraint.current_usage = new_usage` is assigned first,
and only then the hard limit is checked — when it is exceeded an ALERT
entry is stored and `False` is returned, with the assignment left in
place. -/
def SharedMemory.update_constraint_usage (m : SharedMemory) (now : Nat)
    (constraint_id : String) (new_usage : ℚ) : SharedMemory × Bool :=
  match alistGet? constraint_id m.constraints with
  | Option.none => (m, true)
  | some c =>
      let c' : Constraint := { c with current_usage := new_usage }
      let m₁ : SharedMemory := { m with constraints := alistUpdate constraint_id c' m.constraints }
      if c.hard_limit && decide (c.limit_value < new_usage) then
        ((m₁.store now MemoryType.alert "system"
            (Content.fields
              [("alert_type", PyVal.str "constraint_violation"),
               ("constraint_id", PyVal.str constraint_id),
               ("limit", PyVal.num c.limit_value), ("attempted", PyVal.num new_usage)])
            Priority.critical ["alert", "constraint_violation"] [] Option.none).1,
         false)
      else
        (m₁, true)

/-- Alert entries currently stored, used to count the alerts a call emits. -/
def SharedMemory.alertCount (m : SharedMemory) : Nat :=
  (m.entries.filter (fun e => e.type = MemoryType.alert)).length

/-! ## src/infrastructure/governance.py -/

/-- Enum `ApprovalStatus` (governance.py). -/
inductive ApprovalStatus where
  | pending | approved | rejected | escalated | auto_approved
deriving DecidableEq, Repr

/-- Dataclass `ApprovalRequest` (governance.py); the request id is the
numeric component of "REQ-%04d". -/
structure ApprovalRequest where
  request_id : Nat
  requester : String
  approver : String
  request_type : String
  description : String
  amount : Option ℚ
  details : List (String × PyVal)
  status : ApprovalStatus
  conditions : List String
deriving DecidableEq, Repr

/-- Class `Governance`: the `_approval_requests` list (the static
permission table and threshold dict are module-level constants below). -/
structure Governance where
  approval_requests : List ApprovalRequest
deriving DecidableEq, Repr

/-- Field `_auto_approval_limits` of `Governance.__init__`. -/
def autoApprovalLimits : List (String × ℚ) :=
  [("budget", 50000), ("hiring", 3), ("vendor_contract", 25000)]

/-- Python `self._auto_approval_limits.get(request_type, 0)`. -/
def autoApprovalLimit (request_type : String) : ℚ :=
  (alistGet? request_type autoApprovalLimits).getD 0

/-- Method `Governance.request_approval`: `if amount and amount <=
auto_limit` auto-approves, so a `None` or zero amount never auto-approves
and an amount equal to the limit does. Returns the new state and the
created request. -/
def Governance.request_approval (g : Governance) (requester request_type description : String)
    (amount : Option ℚ) (details : List (String × PyVal)) : Governance × ApprovalRequest :=
  let request_id := g.approval_requests.length + 1
  let auto_limit := autoApprovalLimit request_type
  let auto : Bool :=
    match amount with
    | Option.none => false
    | some a => decide (a ≠ 0) && decide (a ≤ auto_limit)
  let req : ApprovalRequest :=
    if auto then
      { request_id := request_id, requester := requester, approver := "system",
        request_type := request_type, description := description, amount := amount,
        details := details, status := ApprovalStatus.auto_approved, conditions := [] }
    else
      { request_id := request_id, requester := requester, approver := "ceo_orchestrator",
        request_type := request_type, description := description, amount := amount,
        details := details, status := ApprovalStatus.pending, conditions := [] }
  ({ approval_requests := g.approval_requests ++ [req] }, req)

/-- The `for req in self._approval_requests: if req.request_id == id:`
idiom shared by approve/reject/escalate: mutate the first matching request
in place and return it. -/
def modifyFirstRequest (f : ApprovalRequest → ApprovalRequest) (request_id : Nat) :
    List ApprovalRequest → List ApprovalRequest × Option ApprovalRequest
  | [] => ([], Option.none)
  | r :: rest =>
      if r.request_id = request_id then
        (f r :: rest, some (f r))
      else
        let (rest', found) := modifyFirstRequest f request_id rest
        (r :: rest', found)

/-- Method `Governance.approve`: sets the status and approver of the
matching request unconditionally (there is no check of the current
status) and extends the conditions when some are given. -/
def Governance.approve (g : Governance) (request_id : Nat) (approver : String)
    (conditions : Option (List String)) : Governance × Option ApprovalRequest :=
  let (reqs, found) := modifyFirstRequest
    (fun r =>
      { r with status := ApprovalStatus.approved, approver := approver,
               conditions := r.conditions ++ (conditions.getD []) })
    request_id g.approval_requests
  ({ approval_requests := reqs }, found)

/-- Method `Governance.reject`: sets the status, approver and a
`rejection_reason` detail of the matching request unconditionally. -/
def Governance.reject (g : Governance) (request_id : Nat) (approver : String)
    (reason : String) : Governance × Option ApprovalRequest :=
  let (reqs, found) := modifyFirstRequest
    (fun r =>
      { r with status := ApprovalStatus.rejected, approver := approver,
               details := alistUpdate "rejection_reason" (PyVal.str reason) r.details })
    request_id g.approval_requests
  ({ approval_requests := reqs }, found)

/-- Method `Governance.escalate`: sets the status, an `escalation_reason`
detail, and approver "ceo" of the matching request unconditionally. -/
def Governance.escalate (g : Governance) (request_id : Nat)
    (reason : String) : Governance × Option ApprovalRequest :=
  let (reqs, found) := modifyFirstRequest
    (fun r =>
      { r with status := ApprovalStatus.escalated, approver := "ceo",
               details := alistUpdate "escalation_reason" (PyVal.str reason) r.details })
    request_id g.approval_requests
  ({ approval_requests := reqs }, found)

/-- Lookup of a request by id in the governance state. -/
def Governance.findRequest (g : Governance) (request_id : Nat) : Option ApprovalRequest :=
  g.approval_requests.find? (fun r => r.request_id = request_id)

/-- The duck-typed agent-output dictionary `Governance.should_escalate`
reads: each field maps a key that may be absent (`Option.none`) to the
default its `.get(key, default)` call supplies. -/
structure EscalationInput where
  confidence : Option ℚ
  budget_impact : Option ℚ
  requires_policy_change : Option Bool
  headcount_impact : Option ℚ
  affected_departments : Option (List String)
deriving DecidableEq, Repr

/-- Method `Governance.should_escalate`: five rules checked in order, the
first match returned (`self` is unused in the source). -/
def should_escalate (o : EscalationInput) : Bool × String :=
  if o.confidence.getD 1 < 3/5 then
    (true, "Confidence below threshold (60%)")
  else if 500000 < o.budget_impact.getD 0 then
    (true, "Budget impact exceeds $500K")
  else if o.requires_policy_change.getD false then
    (true, "Requires policy change")
  else if 20 < o.headcount_impact.getD 0 then
    (true, "Headcount impact exceeds 20 FTE")
  else if 3 < (o.affected_departments.getD []).length then
    (true, "Affects more than 3 departments")
  else
    (false, "")

/-! ## src/infrastructure/audit_logger.py -/

/-- Enum `DecisionType` (audit_logger.py). -/
inductive DecisionType where
  | recommendation | approval | rejection | escalation | allocation | forecast | strategy
deriving DecidableEq, Repr

/-- Enum `ConfidenceLevel` (audit_logger.py). -/
inductive ConfidenceLevel where
  | very_low | low | medium | high | very_high
deriving DecidableEq, Repr

/-- Dataclass `Citation` (audit_logger.py). -/
structure Citation where
  source_type : String
  source_id : String
  description : String
  value : PyVal
  timestamp : Nat
deriving DecidableEq, Repr

/-- The content `DecisionRecord.compute_hash` digests:
`f"{id}:{timestamp.isoformat()}:{agent_name}:{decision}"`. The 16-hex-char
truncated SHA-256 digest of that string is modelled as the content tuple
itself, i.e. as an injective digest (hash collisions are abstracted
away). -/
structure HashDigest where
  id : Nat
  timestamp : Nat
  agent_name : String
  decision : String
deriving DecidableEq, Repr

/-- Dataclass `DecisionRecord` (audit_logger.py). The `hash` field defaults
to the empty string, modelled as `Option.none`. -/
structure DecisionRecord where
  id : Nat
  timestamp : Nat
  agent_name : String
  agent_version : String
  decision_type : DecisionType
  prompt_id : String
  decision : String
  rationale : String
  confidence : ConfidenceLevel
  confidence_score : ℚ
  citations : List Citation
  data_sources : List String
  what_would_change_mind : String
  assumptions : List String
  key_uncertainties : List String
  required_approvals : List String
  obtained_approvals : List String
  escalated_to : Option String
  outcome : Option String
  outcome_timestamp : Option Nat
  outcome_notes : Option String
  hash : Option HashDigest
deriving DecidableEq, Repr

/-- Method `DecisionRecord.compute_hash`: digests only the record's id,
timestamp, agent name and decision text. -/
def DecisionRecord.compute_hash (r : DecisionRecord) : HashDigest :=
  { id := r.id, timestamp := r.timestamp, agent_name := r.agent_name, decision := r.decision }

/-- Class `AuditLogger`: the records dict (keyed by generated id, ids
distinct), the two indexes and the id counter. -/
structure AuditLogger where
  records : List (Nat × DecisionRecord)
  prompt_index : List (String × List Nat)
  agent_index : List (String × List Nat)
  counter : Nat
deriving DecidableEq, Repr

/-- A fresh logger, `AuditLogger.__init__`. -/
def AuditLogger.empty : AuditLogger :=
  { records := [], prompt_index := [], agent_index := [], counter := 0 }

/-- Confidence tier computation inside `AuditLogger.log_decision`. -/
def confidenceLevelOf (score : ℚ) : ConfidenceLevel :=
  if 9/10 ≤ score then ConfidenceLevel.very_high
  else if 8/10 ≤ score then ConfidenceLevel.high
  else if 65/100 ≤ score then ConfidenceLevel.medium
  else if 5/10 ≤ score then ConfidenceLevel.low
  else ConfidenceLevel.very_low

/-- The keyword arguments of `AuditLogger.log_decision`; arguments whose
Python default is `None` (and are then replaced by `x or []`) are
options. -/
structure LogDecisionArgs where
  agent_name : String
  agent_version : String
  decision_type : DecisionType
  prompt_id : String
  decision : String
  rationale : String
  confidence_score : ℚ
  citations : List Citation
  data_sources : List String
  assumptions : Option (List String)
  what_would_change_mind : String
  key_uncertainties : Option (List String)
  required_approvals : Option (List String)
  escalated_to : Option String
deriving DecidableEq, Repr

/-- Python `index.setdefault-style` append used for both indexes of
`log_decision`. -/
def indexAppend (k : String) (v : Nat) (idx : List (String × List Nat)) :
    List (String × List Nat) :=
  alistAppendGroup k v idx

/-- Method `AuditLogger.log_decision`: computes the confidence tier, builds
the record, computes and stores the integrity hash, stores the record and
updates both indexes. Returns the new state and the created record. -/
def AuditLogger.log_decision (lg : AuditLogger) (now : Nat) (a : LogDecisionArgs) :
    AuditLogger × DecisionRecord :=
  let counter' := lg.counter + 1
  let rec₀ : DecisionRecord :=
    { id := counter', timestamp := now, agent_name := a.agent_name,
      agent_version := a.agent_version, decision_type := a.decision_type,
      prompt_id := a.prompt_id, decision := a.decision, rationale := a.rationale,
      confidence := confidenceLevelOf a.confidence_score,
      confidence_score := a.confidence_score, citations := a.citations,
      data_sources := a.data_sources, assumptions := a.assumptions.getD [],
      what_would_change_mind := a.what_would_change_mind,
      key_uncertainties := a.key_uncertainties.getD [],
      required_approvals := a.required_approvals.getD [],
      obtained_approvals := [], escalated_to := a.escalated_to,
      outcome := Option.none, outcome_timestamp := Option.none,
      outcome_notes := Option.none, hash := Option.none }
  let record : DecisionRecord := { rec₀ with hash := some rec₀.compute_hash }
  ({ records := alistUpdate record.id record lg.records,
     prompt_index := indexAppend a.prompt_id record.id lg.prompt_index,
     agent_index := indexAppend a.agent_name record.id lg.agent_index,
     counter := counter' },
   record)

/-- Method `AuditLogger.update_outcome`: mutates only the three outcome
fields of the record; unknown ids return `False`. -/
def AuditLogger.update_outcome (lg : AuditLogger) (now : Nat) (record_id : Nat)
    (outcome : String) (notes : Option String) : AuditLogger × Bool :=
  match alistGet? record_id lg.records with
  | Option.none => (lg, false)
  | some r =>
      let r' : DecisionRecord :=
        { r with outcome := some outcome, outcome_timestamp := some now,
                 outcome_notes := notes }
      ({ lg with records := alistUpdate record_id r' lg.records }, true)

/-- Method `AuditLogger.add_approval`: appends the approver to the
record's obtained approvals when not already present; unknown ids return
`False`. -/
def AuditLogger.add_approval (lg : AuditLogger) (record_id : Nat) (approver : String) :
    AuditLogger × Bool :=
  match alistGet? record_id lg.records with
  | Option.none => (lg, false)
  | some r =>
      let r' : DecisionRecord :=
        if approver ∈ r.obtained_approvals then r
        else { r with obtained_approvals := r.obtained_approvals ++ [approver] }
      ({ lg with records := alistUpdate record_id r' lg.records }, true)

/-- Method `AuditLogger.verify_integrity`: recompute-and-compare; an
unknown id yields `False`. -/
def AuditLogger.verify_integrity (lg : AuditLogger) (record_id : Nat) : Bool :=
  match alistGet? record_id lg.records with
  | Option.none => false
  | some r => r.hash = some r.compute_hash

/-- Post-creation mutations the audit trail offers on an existing record:
the claims quantify over arbitrary sequences of these calls. -/
inductive AuditOp where
  | updateOutcome (now : Nat) (record_id : Nat) (outcome : String) (notes : Option String)
  | addApproval (record_id : Nat) (approver : String)
deriving DecidableEq, Repr

/-- Application of one post-creation call. -/
def AuditLogger.applyOp (lg : AuditLogger) : AuditOp → AuditLogger
  | AuditOp.updateOutcome now record_id outcome notes =>
      (lg.update_outcome now record_id outcome notes).1
  | AuditOp.addApproval record_id approver =>
      (lg.add_approval record_id approver).1

/-- Application of a sequence of post-creation calls, in order. -/
def AuditLogger.applyOps (lg : AuditLogger) (ops : List AuditOp) : AuditLogger :=
  ops.foldl AuditLogger.applyOp lg

/-- An out-of-band alteration: the record stored under `record_id` is
replaced wholesale, bypassing the logger's API (the simulated tampering of
the spec's hash-integrity property). -/
def AuditLogger.tamper (lg : AuditLogger) (record_id : Nat) (r' : DecisionRecord) :
    AuditLogger :=
  { lg with records := alistUpdate record_id r' lg.records }

/-! ## src/infrastructure/conflict_resolver.py

The resolver consumes duck-typed per-agent output dictionaries; the keys
it reads (`budget_request`, `timeline`, `strategy`, `resource_requests`
and their sub-keys) are modelled as optional fields, `Option.none`
standing for an absent key.  Number-to-string renderings inside
description texts use the rational's own rendering in place of Python's
float formatting; no theorem depends on a description string. -/

/-- Enum `ConflictType` (conflict_resolver.py). -/
inductive ConflictType where
  | budget_overallocation | resource_contention | strategic_misalignment
  | timeline_conflict | dependency_unmet | priority_conflict
deriving DecidableEq, Repr

/-- The `budget_request` dictionary of an agent output. -/
structure BudgetRequest where
  department : Option String
  amount : Option ℚ
  purpose : Option String
deriving DecidableEq, Repr

/-- One deliverable dictionary inside a `timeline` (its `name` key is
indexed directly, so it is mandatory). -/
structure Deliverable where
  name : String
  date : Option String
deriving DecidableEq, Repr

/-- The `timeline` dictionary of an agent output. -/
structure Timeline where
  depends_on : Option (List String)
  completion_date : Option String
  deliverables : Option (List Deliverable)
deriving DecidableEq, Repr

/-- The `strategy` dictionary of an agent output. -/
structure Strategy where
  cac_direction : Option String
  pricing_strategy : Option String
  margin_protection : Option Bool
deriving DecidableEq, Repr

/-- The empty strategy dictionary, `strategies.get(name, {})`. -/
def emptyStrategy : Strategy :=
  { cac_direction := Option.none, pricing_strategy := Option.none,
    margin_protection := Option.none }

/-- One entry of the `resource_requests` list of an agent output. -/
structure ResourceRequest where
  resource : Option String
  amount : Option ℚ
  priority : Option String
deriving DecidableEq, Repr

/-- The per-agent output dictionary as the `ConflictResolver` reads it. -/
structure CRAgentOutput where
  budget_request : Option BudgetRequest
  timeline : Option Timeline
  strategy : Option Strategy
  resource_requests : Option (List ResourceRequest)
deriving DecidableEq, Repr

/-- The `company_context` object: `_detect_budget_conflict` reads its
`budget_limits` attribute (a dict from department to limit). -/
structure CompanyContext where
  budget_limits : List (String × ℚ)
deriving DecidableEq, Repr

/-- A request record built by `_detect_budget_conflict`
(`{"agent", "amount", "purpose"}`; detection stores no `priority` key, so
the field is optional and read back with default "medium" during
resolution). -/
structure BudgetReqEntry where
  agent : String
  amount : ℚ
  purpose : String
  priority : Option String
deriving DecidableEq, Repr

/-- A per-department overallocation record built by
`_detect_budget_conflict`. -/
structure DeptConflict where
  department : String
  requested : ℚ
  available : ℚ
  shortfall : ℚ
  requests : List BudgetReqEntry
deriving DecidableEq, Repr

/-- An unmet dependency record built by `_detect_timeline_conflict`. -/
structure UnmetDep where
  agent : String
  depends_on : String
  needed_by : Option String
deriving DecidableEq, Repr

/-- A deliverable record collected by `_detect_timeline_conflict`. -/
structure DelivEntry where
  agent : String
  deliverable : String
  delivery_date : Option String
deriving DecidableEq, Repr

/-- A contradiction record built by `_detect_strategic_misalignment`:
the issue and the named positions. -/
structure Contradiction where
  issue : String
  positions : List (String × String)
deriving DecidableEq, Repr

/-- One grouped resource request built by `_detect_resource_contention`. -/
structure ContentionEntry where
  agent : String
  amount : ℚ
  priority : String
deriving DecidableEq, Repr

/-- A contention record built by `_detect_resource_contention`. -/
structure Contention where
  resource : Option String
  total_requested : ℚ
  requests : List ContentionEntry
deriving DecidableEq, Repr

/-- The `agent_recommendations` evidence payload of a `Conflict`, one
variant per detection pass. -/
inductive ConflictEvidence where
  | budgetConflicts (l : List DeptConflict)
  | unmetDependencies (l : List UnmetDep)
  | contradictions (l : List Contradiction)
  | contentions (l : List Contention)
deriving DecidableEq, Repr

/-- One allocation entry built by `_resolve_budget_conflict` (the
`requested` key is only present for partially funded entries). -/
structure AllocEntry where
  agent : String
  amount : ℚ
  requested : Option ℚ
  status : String
deriving DecidableEq, Repr

/-- A resolution dictionary as returned by the `_resolve_*` strategies;
keys a strategy does not emit are `Option.none` or empty. -/
structure Resolution where
  resolved : Bool
  description : String
  allocation : List AllocEntry
  requires_ceo_approval : Option Bool
  escalation_required : Option Bool
  strategy : Option String
  options : List Contradiction
deriving DecidableEq, Repr

/-- Dataclass `Conflict` (conflict_resolver.py). -/
structure Conflict where
  conflict_id : String
  conflict_type : ConflictType
  agents_involved : List String
  description : String
  agent_recommendations : ConflictEvidence
  severity : String
  resolution : Option String
  resolution_details : Option Resolution
deriving DecidableEq, Repr

/-- Budget-request grouping of `_detect_budget_conflict`: department
defaults to the agent name with "_agent" removed. -/
def budgetRequestsOf (outputs : List (String × CRAgentOutput)) :
    List (String × List BudgetReqEntry) :=
  outputs.foldl
    (fun acc p =>
      match p.2.budget_request with
      | some req =>
          alistAppendGroup (req.department.getD (strReplace p.1 "_agent" ""))
            { agent := p.1, amount := req.amount.getD 0, purpose := req.purpose.getD "",
              priority := Option.none } acc
      | Option.none => acc)
    []

/-- Overallocation scan of `_detect_budget_conflict`: assumed spent is a
fixed 50% of the department's limit. -/
def deptConflictsOf (groups : List (String × List BudgetReqEntry))
    (ctx : CompanyContext) : List DeptConflict :=
  groups.foldl
    (fun acc p =>
      let total := (p.2.map BudgetReqEntry.amount).sum
      let budget_limit := (alistGet? p.1 ctx.budget_limits).getD 0
      let spent := budget_limit * (1/2)
      let available := budget_limit - spent
      if available < total then
        acc ++ [{ department := p.1, requested := total, available := available,
                  shortfall := total - available, requests := p.2 }]
      else acc)
    []

/-- Method `ConflictResolver._detect_budget_conflict`. -/
def detectBudgetConflict (outputs : List (String × CRAgentOutput))
    (ctx : CompanyContext) : Option Conflict :=
  let conflicts_detected := deptConflictsOf (budgetRequestsOf outputs) ctx
  match conflicts_detected with
  | [] => Option.none
  | d :: _ =>
      some { conflict_id := "CONF-001", conflict_type := ConflictType.budget_overallocation,
             agents_involved := outputs.map (fun p => p.1),
             description := "Budget overrun detected: " ++ toString d.shortfall
               ++ " over allocated budget",
             agent_recommendations := ConflictEvidence.budgetConflicts conflicts_detected,
             severity := "high", resolution := Option.none,
             resolution_details := Option.none }

/-- Dependency collection of `_detect_timeline_conflict`. -/
def timelineDepsOf (outputs : List (String × CRAgentOutput)) : List UnmetDep :=
  outputs.foldl
    (fun acc p =>
      match p.2.timeline with
      | some tl =>
          (match tl.depends_on with
           | some deps =>
               acc ++ deps.map (fun dep =>
                 { agent := p.1, depends_on := dep, needed_by := tl.completion_date })
           | Option.none => acc)
      | Option.none => acc)
    []

/-- Deliverable collection of `_detect_timeline_conflict`. -/
def timelineDeliverablesOf (outputs : List (String × CRAgentOutput)) : List DelivEntry :=
  outputs.foldl
    (fun acc p =>
      match p.2.timeline with
      | some tl =>
          (match tl.deliverables with
           | some ds =>
               acc ++ ds.map (fun d =>
                 { agent := p.1, deliverable := d.name, delivery_date := d.date })
           | Option.none => acc)
      | Option.none => acc)
    []

/-- Method `ConflictResolver._detect_timeline_conflict`. -/
def detectTimelineConflict (outputs : List (String × CRAgentOutput)) : Option Conflict :=
  let deps := timelineDepsOf outputs
  let delivs := timelineDeliverablesOf outputs
  let unmet := deps.filter
    (fun dep => ¬ delivs.any (fun d => d.deliverable = dep.depends_on))
  match unmet with
  | [] => Option.none
  | _ :: _ =>
      some { conflict_id := "CONF-002", conflict_type := ConflictType.timeline_conflict,
             agents_involved := unmet.map UnmetDep.agent,
             description := "Unmet dependencies",
             agent_recommendations := ConflictEvidence.unmetDependencies unmet,
             severity := "medium", resolution := Option.none,
             resolution_details := Option.none }

/-- Strategy collection of `_detect_strategic_misalignment`. -/
def strategiesOf (outputs : List (String × CRAgentOutput)) : List (String × Strategy) :=
  outputs.foldl
    (fun acc p =>
      match p.2.strategy with
      | some s => alistUpdate p.1 s acc
      | Option.none => acc)
    []

/-- The hardcoded CAC contradiction record. -/
def cacContradiction : Contradiction :=
  { issue := "CAC strategy conflict",
    positions := [("marketing_position", "Increase CAC for higher quality leads"),
                  ("finance_position", "Decrease CAC to improve unit economics")] }

/-- The hardcoded pricing contradiction record. -/
def pricingContradiction : Contradiction :=
  { issue := "Pricing strategy conflict",
    positions := [("sales_position", "Aggressive discounting to win deals"),
                  ("finance_position", "Protect margins, minimize discounting")] }

/-- Method `ConflictResolver._detect_strategic_misalignment`: exactly two
hardcoded antagonistic checks — marketing declaring `cac_direction
"increase"` against finance declaring `"decrease"`, and sales declaring
`pricing_strategy "aggressive_discount"` against finance declaring
`margin_protection True`. -/
def detectStrategicMisalignment (outputs : List (String × CRAgentOutput)) : Option Conflict :=
  let strategies := strategiesOf outputs
  let marketing_strat := (alistGet? "marketing_agent" strategies).getD emptyStrategy
  let finance_strat := (alistGet? "finance_agent" strategies).getD emptyStrategy
  let sales_strat := (alistGet? "sales_agent" strategies).getD emptyStrategy
  let contradictions :=
    (if marketing_strat.cac_direction = some "increase"
        ∧ finance_strat.cac_direction = some "decrease" then
       [cacContradiction]
     else []) ++
    (if sales_strat.pricing_strategy = some "aggressive_discount"
        ∧ finance_strat.margin_protection = some true then
       [pricingContradiction]
     else [])
  match contradictions with
  | [] => Option.none
  | _ :: _ =>
      some { conflict_id := "CONF-003",
             conflict_type := ConflictType.strategic_misalignment,
             agents_involved := strategies.map (fun p => p.1),
             description := "Contradictory strategic directions detected",
             agent_recommendations := ConflictEvidence.contradictions contradictions,
             severity := "critical", resolution := Option.none,
             resolution_details := Option.none }

/-- Resource-request grouping of `_detect_resource_contention` (the
`resource` key may be absent, so groups are keyed by an optional name). -/
def resourceRequestsOf (outputs : List (String × CRAgentOutput)) :
    List (Option String × List ContentionEntry) :=
  outputs.foldl
    (fun acc p =>
      match p.2.resource_requests with
      | some rs =>
          rs.foldl
            (fun acc2 r =>
              alistAppendGroup r.resource
                { agent := p.1, amount := r.amount.getD 1, priority := r.priority.getD "medium" }
                acc2)
            acc
      | Option.none => acc)
    []

/-- Method `ConflictResolver._detect_resource_contention` (the
`agents_involved` field is built from a Python set whose iteration order
is unspecified; the model fixes first-occurrence order). -/
def detectResourceContention (outputs : List (String × CRAgentOutput)) : Option Conflict :=
  let contentions := (resourceRequestsOf outputs).foldl
    (fun acc p =>
      if 1 < p.2.length then
        let total := (p.2.map ContentionEntry.amount).sum
        if 3 < total then
          acc ++ [{ resource := p.1, total_requested := total, requests := p.2 }]
        else acc
      else acc)
    []
  match contentions with
  | [] => Option.none
  | _ :: _ =>
      some { conflict_id := "CONF-004", conflict_type := ConflictType.resource_contention,
             agents_involved :=
               ((contentions.map Contention.requests).flatten.map ContentionEntry.agent).eraseDups,
             description := "Resource contention",
             agent_recommendations := ConflictEvidence.contentions contentions,
             severity := "medium", resolution := Option.none,
             resolution_details := Option.none }

/-- Method `ConflictResolver.detect_conflicts`: the four passes, in source
order, each contributing at most one conflict. -/
def detect_conflicts (outputs : List (String × CRAgentOutput)) (ctx : CompanyContext) :
    List Conflict :=
  (detectBudgetConflict outputs ctx).toList ++ (detectTimelineConflict outputs).toList
    ++ (detectStrategicMisalignment outputs).toList
    ++ (detectResourceContention outputs).toList

/-- The `priority_order` dict of `_resolve_budget_conflict` with its
`.get(..., 2)` default. -/
def priorityOrderGet (p : String) : Nat :=
  if p = "critical" then 0
  else if p = "high" then 1
  else if p = "medium" then 2
  else if p = "low" then 3
  else 2

/-- Sort key of `_resolve_budget_conflict`. -/
def budgetSortKey (r : BudgetReqEntry) : Nat :=
  priorityOrderGet (r.priority.getD "medium")

/-- Stable ascending insertion by the priority key, matching Python's
stable `sorted`. -/
def insertByPriorityAsc (a : BudgetReqEntry) : List BudgetReqEntry → List BudgetReqEntry
  | [] => [a]
  | b :: l =>
      if budgetSortKey a < budgetSortKey b then a :: b :: l
      else b :: insertByPriorityAsc a l

/-- Python `sorted(requests, key=priority_order.get(...))`. -/
def sortRequestsByPriority (l : List BudgetReqEntry) : List BudgetReqEntry :=
  l.foldl (fun acc a => insertByPriorityAsc a acc) []

/-- Allocation loop of `_resolve_budget_conflict`: fully fund while the
request fits, otherwise hand out what remains and continue with zero. -/
def allocateByPriority : List BudgetReqEntry → ℚ → List AllocEntry × ℚ
  | [], remaining => ([], remaining)
  | r :: rest, remaining =>
      if r.amount ≤ remaining then
        let next := allocateByPriority rest (remaining - r.amount)
        ({ agent := r.agent, amount := r.amount, requested := Option.none,
           status := "fully_funded" } :: next.1, next.2)
      else
        let next := allocateByPriority rest 0
        ({ agent := r.agent, amount := remaining, requested := some r.amount,
           status := "partially_funded" } :: next.1, next.2)

/-- The empty resolution skeleton shared by the strategies. -/
def baseResolution (resolved : Bool) (description : String) : Resolution :=
  { resolved := resolved, description := description, allocation := [],
    requires_ceo_approval := Option.none, escalation_required := Option.none,
    strategy := Option.none, options := [] }

/-- Method `ConflictResolver._resolve_budget_conflict`: works on the first
detected department conflict; `resolved` is `remaining >= 0` and
`requires_ceo_approval` is `remaining < 0`, computed after the loop has
clamped `remaining` at zero. -/
def resolveBudgetConflict (c : Conflict) : Resolution :=
  match c.agent_recommendations with
  | ConflictEvidence.budgetConflicts (d :: _) =>
      let sortedReqs := sortRequestsByPriority d.requests
      let result := allocateByPriority sortedReqs d.available
      { resolved := decide (0 ≤ result.2),
        description := "Budget allocated by priority. Remaining: $" ++ toString result.2,
        allocation := result.1,
        requires_ceo_approval := some (decide (result.2 < 0)),
        escalation_required := Option.none, strategy := Option.none, options := [] }
  | _ => baseResolution false "No conflict data"

/-- Method `ConflictResolver._resolve_resource_conflict`. -/
def resolveResourceConflict (_c : Conflict) : Resolution :=
  { baseResolution true "Resources scheduled sequentially by priority" with
      strategy := some "time_phasing" }

/-- Method `ConflictResolver._resolve_strategic_conflict`: never resolves;
flags escalation and carries the competing positions. -/
def resolveStrategicConflict (c : Conflict) : Resolution :=
  { resolved := false, description := "Strategic misalignment requires CEO decision",
    allocation := [], requires_ceo_approval := Option.none,
    escalation_required := some true, strategy := Option.none,
    options :=
      match c.agent_recommendations with
      | ConflictEvidence.contradictions l => l
      | _ => [] }

/-- Method `ConflictResolver._resolve_timeline_conflict`. -/
def resolveTimelineConflict (_c : Conflict) : Resolution :=
  { baseResolution true "Timeline adjusted to respect dependencies" with
      strategy := some "critical_path_adjustment" }

/-- Method `ConflictResolver._resolve_priority_conflict`. -/
def resolvePriorityConflict (_c : Conflict) : Resolution :=
  { baseResolution true "Priorities ranked by strategic impact" with
      strategy := some "impact_ranking" }

/-- The `_resolution_strategies` table: `DEPENDENCY_UNMET` has no
strategy. -/
def resolverFor : ConflictType → Option (Conflict → Resolution)
  | ConflictType.budget_overallocation => some resolveBudgetConflict
  | ConflictType.resource_contention => some resolveResourceConflict
  | ConflictType.strategic_misalignment => some resolveStrategicConflict
  | ConflictType.timeline_conflict => some resolveTimelineConflict
  | ConflictType.priority_conflict => some resolvePriorityConflict
  | ConflictType.dependency_unmet => Option.none

/-- The resolution summary `resolve_conflicts` returns beside the
unresolved list. -/
structure ResolutionSummary where
  resolutions : List (String × Resolution)
  unresolved_count : Nat
deriving DecidableEq, Repr

/-- One step of `resolve_conflicts`: apply the strategy, record the
resolution on the conflict, and keep the conflict as unresolved when the
strategy did not resolve it (or no strategy exists). -/
def resolveStep (acc : List Conflict × List (String × Resolution)) (c : Conflict) :
    List Conflict × List (String × Resolution) :=
  match resolverFor c.conflict_type with
  | some f =>
      let res := f c
      let c' : Conflict := { c with resolution := some res.description,
                                    resolution_details := some res }
      (if res.resolved then acc.1 else acc.1 ++ [c'], acc.2 ++ [(c.conflict_id, res)])
  | Option.none => (acc.1 ++ [c], acc.2)

/-- Method `ConflictResolver.resolve_conflicts`: returns the unresolved
conflicts and the resolution summary. -/
def resolve_conflicts (conflicts : List Conflict) : List Conflict × ResolutionSummary :=
  let acc := conflicts.foldl resolveStep ([], [])
  (acc.1, { resolutions := acc.2, unresolved_count := acc.1.length })

/-! ## src/ceo_orchestrator.py -/

/-- A raised Python exception, as far as the embedded control flow needs
to distinguish it. -/
inductive PyError where
  | attributeError (name : String)
  | nameError (name : String)
  | workerFailure (agent : String) (msg : String)
deriving DecidableEq, Repr

/-- A task dictionary built by `_decompose_goal`; `_route_tasks` reads
`task["agent"]` (mandatory) and `task.get("type", "general")`. -/
structure Task where
  agent : String
  type : Option String
  description : String
  target_retention_improvement : Option ℚ
deriving DecidableEq, Repr

/-- The keys of `self.agents` set up in `CEOOrchestrator.__init__`. -/
def orchestratorAgentNames : List String :=
  ["sales", "marketing", "finance", "operations", "support", "hr"]

/-- Loop body of `CEOOrchestrator._route_tasks`. `pool` is the worker
pool: invoking a worker either returns its structured output or raises.
There is no try/except around `agent.process_task(...)` in the source, so
a raised error propagates out of the whole loop; on success the output
dict is collected under the agent's name and stored in shared memory. -/
def routeTasksAux (pool : Task → Except PyError AgentOutput) (now : Nat) :
    List Task → List (String × WorkerOutputDict) → SharedMemory →
      Except PyError (List (String × WorkerOutputDict) × SharedMemory)
  | [], outs, m => Except.ok (outs, m)
  | t :: rest, outs, m =>
      if t.agent ∈ orchestratorAgentNames then
        match pool t with
        | Except.error e => Except.error e
        | Except.ok out =>
            let d := out.toOutputDict
            let m' := (m.store now MemoryType.agent_output t.agent (Content.agentOutput d)
              Priority.medium [t.agent, t.type.getD "general"] [] Option.none).1
            routeTasksAux pool now rest (alistUpdate t.agent d outs) m'
      else
        routeTasksAux pool now rest outs m

/-- Method `CEOOrchestrator._route_tasks`. -/
def route_tasks (pool : Task → Except PyError AgentOutput) (tasks : List Task)
    (m : SharedMemory) (now : Nat) :
    Except PyError (List (String × WorkerOutputDict) × SharedMemory) :=
  routeTasksAux pool now tasks [] m

/-- Dataclass `ExecutiveOutput` (ceo_orchestrator.py); option/KPI/plan
dictionaries are kept as primitive key-value lists. -/
structure ExecutiveOutput where
  prompt_id : String
  strategic_goal : String
  constraint : String
  summary : String
  strategic_options : List (List (String × PyVal))
  department_plans : List (String × List (String × PyVal))
  budget_impact : List (String × PyVal)
  headcount_impact : List (String × PyVal)
  risks : List String
  assumptions : List String
  dependencies : List String
  kpis : List (List (String × PyVal))
  alignment_status : String
  escalations : List (List (String × PyVal))
  audit_summary : List (String × PyVal)
deriving Repr

/-- Every attribute `class AuditLogger` defines (audit_logger.py lines
132-389): its methods and `__init__`; attribute lookup on an
`AuditLogger` instance resolves exactly these names (besides the instance
fields set in `__init__`, none of which is named `log` or
`log_escalation` either: `_records`, `_prompt_index`, `_agent_index`,
`_callbacks`, `_lock`, `_counter`). -/
def auditLoggerMethodNames : List String :=
  ["__init__", "_generate_id", "log_decision", "update_outcome", "add_approval",
   "get_record", "get_records_by_prompt", "get_records_by_agent",
   "get_pending_approvals", "get_escalated_decisions", "verify_integrity",
   "generate_report", "export_json", "register_callback"]

/-- The instance attributes `AuditLogger.__init__` sets. -/
def auditLoggerFieldNames : List String :=
  ["_records", "_prompt_index", "_agent_index", "_callbacks", "_lock", "_counter"]

/-- Names resolvable at module level inside ceo_orchestrator.py: its
imports (lines 8-20) and its module-level definitions. `AuditLevel`,
referenced at line 210 inside `_parse_prompt`, is not among them and is
not a Python builtin, so reaching that reference raises `NameError`. -/
def ceoOrchestratorModuleNames : List String :=
  ["Dict", "List", "Any", "Optional", "dataclass", "field", "datetime", "uuid",
   "get_shared_memory", "get_audit_logger", "get_data_store", "ConflictResolver",
   "Governance", "DecisionType", "SalesAgent", "MarketingAgent", "FinanceAgent",
   "OperationsAgent", "SupportAgent", "HRAgent", "ExecutiveOutput",
   "CEOOrchestrator", "_orchestrator_instance", "get_orchestrator"]

/-- Python attribute access `self.audit_logger.<name>(...)` on the
`AuditLogger` instance: calling a name the class does not define raises
`AttributeError`. -/
def callAuditLoggerMethod (name : String) : Except PyError Unit :=
  if name ∈ auditLoggerMethodNames ∨ name ∈ auditLoggerFieldNames then Except.ok ()
  else Except.error (PyError.attributeError name)

/-- Method `CEOOrchestrator.process_prompt`: after computing the prompt
id, its first statement is `self.audit_logger.log(...)`
(ceo_orchestrator.py line 130). `rest` stands for everything after that
statement (parsing, decomposition, routing, conflict resolution,
governance, finalization), so the theorem about this definition holds for
whatever the remaining pipeline would do. -/
def process_prompt (rest : String → Except PyError ExecutiveOutput) (prompt : String) :
    Except PyError ExecutiveOutput :=
  (callAuditLoggerMethod "log").bind (fun _ => rest prompt)

/-! ## Concrete instances used to evaluate the embedded code -/

/-- A hard-limited budget constraint with limit 100 and usage 50. -/
def c1Constraint : Constraint :=
  { id := "BUDGET-eng", category := "budget", description := "Engineering budget",
    limit_value := 100, current_usage := 50, unit := "USD", hard_limit := true,
    owner := "cfo" }

/-- A store holding only `c1Constraint`. -/
def c1Memory : SharedMemory := SharedMemory.empty.add_constraint 0 c1Constraint

/-- The result of attempting to raise the usage of `c1Constraint` to 150,
50 above its hard limit. -/
def c1Result : SharedMemory × Bool := c1Memory.update_constraint_usage 1 "BUDGET-eng" 150

/-- Concrete arguments for a logged decision. -/
def c2Args : LogDecisionArgs :=
  { agent_name := "finance_agent", agent_version := "1.0.0",
    decision_type := DecisionType.recommendation, prompt_id := "PROMPT-001",
    decision := "Approve budget increase", rationale := "ROI analysis",
    confidence_score := 85/100, citations := [], data_sources := ["finance_erp"],
    assumptions := some ["stable market"], what_would_change_mind := "CAC rises",
    key_uncertainties := some [], required_approvals := some ["CFO"],
    escalated_to := Option.none }

/-- The logger and the record after logging `c2Args` into an empty trail. -/
def c2Pair : AuditLogger × DecisionRecord := AuditLogger.empty.log_decision 5 c2Args

/-- A concrete sequence of post-creation calls on the logged record. -/
def c2Ops : List AuditOp :=
  [AuditOp.updateOutcome 9 c2Pair.2.id "implemented" (some "rolled out"),
   AuditOp.addApproval c2Pair.2.id "CFO"]

/-- An out-of-band alteration of the logged record: the decision text is
rewritten while the stored hash is left untouched. -/
def c2Tampered : DecisionRecord := { c2Pair.2 with decision := "Approve unlimited budget" }

/-- An empty governance state. -/
def c3Gov : Governance := { approval_requests := [] }

/-- The request created by a budget approval request at exactly the
50000 auto-approval threshold. -/
def c3AtThreshold : ApprovalRequest :=
  (c3Gov.request_approval "sales_agent" "budget" "Q3 campaign" (some 50000) []).2

/-- The request created by a budget approval request for amount 0. -/
def c3Zero : ApprovalRequest :=
  (c3Gov.request_approval "finance_agent" "budget" "Zero-cost item" (some 0) []).2

/-- A directive task whose worker invocation will fail. -/
def c4FailTask : Task :=
  { agent := "sales", type := some "improve_retention",
    description := "Develop retention strategies",
    target_retention_improvement := some (8/100) }

/-- A directive task whose worker invocation would succeed. -/
def c4OkTask : Task :=
  { agent := "marketing", type := some "retention_campaign",
    description := "Design retention campaigns",
    target_retention_improvement := some (8/100) }

/-- The output the healthy worker would produce. -/
def c4Output : AgentOutput :=
  { agent_name := "marketing", task_id := "MKT-0001", recommendations := [],
    confidence := 4/5, citations := [], what_would_change_mind := [],
    budget_impact := some 100000, headcount_impact := some 2,
    timeline_days := some 90, risks := [], dependencies := [] }

/-- A worker pool in which the sales worker raises and every other worker
answers with `c4Output`. -/
def c4Pool : Task → Except PyError AgentOutput := fun t =>
  if t.agent = "sales" then Except.error (PyError.workerFailure "sales" "boom")
  else Except.ok c4Output

/-- A single agent requesting 150 for the marketing department. -/
def c5Outputs : List (String × CRAgentOutput) :=
  [("marketing_agent",
    { budget_request := some { department := some "marketing", amount := some 150,
                               purpose := some "ads" },
      timeline := Option.none, strategy := Option.none,
      resource_requests := Option.none })]

/-- A context in which marketing's limit is 200, so 100 is available
after the assumed 50% spend — 50 short of the request. -/
def c5Ctx : CompanyContext := { budget_limits := [("marketing", 200)] }

/-- A governance state holding one freshly created (pending) request. -/
def c6Step1 : Governance × ApprovalRequest :=
  c3Gov.request_approval "marketing_agent" "budget" "Brand push" (some 80000) []

/-- The created request's id. -/
def c6ReqId : Nat := c6Step1.2.request_id

/-- The state after approving the request (a terminal transition). -/
def c6Gov2 : Governance := (c6Step1.1.approve c6ReqId "ceo_orchestrator" Option.none).1

/-- The state after subsequently rejecting the already-approved request. -/
def c6Gov3 : Governance := (c6Gov2.reject c6ReqId "ceo_orchestrator" "budget freeze").1

/-- A store holding one non-expired critical-priority entry. -/
def c7Entry : MemoryEntry :=
  { id := 1, type := MemoryType.context, source := "test", content := Content.fields [],
    timestamp := 0, priority := Priority.critical, tags := [], references := [],
    expires_at := Option.none }

/-- The store holding only `c7Entry`. -/
def c7Memory : SharedMemory :=
  { entries := [c7Entry], goals := [], constraints := [], counter := 1 }

/-- A marketing output declaring the CAC lever should decrease. -/
def c8MarketingDec : CRAgentOutput :=
  { budget_request := Option.none, timeline := Option.none,
    strategy := some { cac_direction := some "decrease", pricing_strategy := Option.none,
                       margin_protection := Option.none },
    resource_requests := Option.none }

/-- A finance output declaring the CAC lever should increase: together
with `c8MarketingDec` this is an opposite-polarity pair on the same lever,
with the roles of "increase" and "decrease" swapped relative to the
hardcoded check. -/
def c8FinanceInc : CRAgentOutput :=
  { budget_request := Option.none, timeline := Option.none,
    strategy := some { cac_direction := some "increase", pricing_strategy := Option.none,
                       margin_protection := Option.none },
    resource_requests := Option.none }

/-- The reversed-polarity pair of outputs. -/
def c8RevOutputs : List (String × CRAgentOutput) :=
  [("marketing_agent", c8MarketingDec), ("finance_agent", c8FinanceInc)]

/-- A marketing output declaring the CAC lever should increase (the
polarity the hardcoded check recognises). -/
def c8MarketingInc : CRAgentOutput :=
  { budget_request := Option.none, timeline := Option.none,
    strategy := some { cac_direction := some "increase", pricing_strategy := Option.none,
                       margin_protection := Option.none },
    resource_requests := Option.none }

/-- A finance output declaring the CAC lever should decrease. -/
def c8FinanceDec : CRAgentOutput :=
  { budget_request := Option.none, timeline := Option.none,
    strategy := some { cac_direction := some "decrease", pricing_strategy := Option.none,
                       margin_protection := Option.none },
    resource_requests := Option.none }

/-- A context with no budget limits. -/
def c8Ctx : CompanyContext := { budget_limits := [] }

/-- A worker output with confidence 0.55 and no other escalation
trigger. -/
def c9LowConfidence : EscalationInput :=
  { confidence := some (55/100), budget_impact := Option.none,
    requires_policy_change := Option.none, headcount_impact := Option.none,
    affected_departments := Option.none }

/-- The detected CAC strategic-misalignment conflict for the
marketing/finance output pair (all of its fields are fixed by the
source). -/
def c8DetectedConflict : Conflict :=
  { conflict_id := "CONF-003", conflict_type := ConflictType.strategic_misalignment,
    agents_involved := ["marketing_agent", "finance_agent"],
    description := "Contradictory strategic directions detected",
    agent_recommendations := ConflictEvidence.contradictions [cacContradiction],
    severity := "critical", resolution := Option.none,
    resolution_details := Option.none }

/-! ## Supporting lemmas -/

theorem alistGet?_update_self [DecidableEq κ] (k : κ) (v : α) (l : List (κ × α)) :
    alistGet? k (alistUpdate k v l) = some v := by
  induction l with
  | nil => simp [alistUpdate, alistGet?]
  | cons p rest ih =>
      obtain ⟨k', v'⟩ := p
      by_cases h : k' = k
      · simp [alistUpdate, alistGet?, h]
      · simp [alistUpdate, alistGet?, h, ih]

theorem alistGet?_update_ne [DecidableEq κ] (k k' : κ) (v : α) (l : List (κ × α))
    (h : k ≠ k') : alistGet? k (alistUpdate k' v l) = alistGet? k l := by
  have hk'k : ¬ (k' = k) := fun e => h e.symm
  induction l with
  | nil => simp [alistUpdate, alistGet?, hk'k]
  | cons p rest ih =>
      obtain ⟨a, b⟩ := p
      by_cases ha : a = k'
      · subst ha
        simp [alistUpdate, alistGet?, hk'k]
      · by_cases hk : a = k
        · simp [alistUpdate, alistGet?, ha, hk, h]
        · simp [alistUpdate, alistGet?, ha, hk, ih]

theorem compute_hash_outcome_fields (r : DecisionRecord) (o : Option String)
    (ts : Option Nat) (n : Option String) :
    ({ r with outcome := o, outcome_timestamp := ts, outcome_notes := n
       : DecisionRecord }).compute_hash = r.compute_hash := rfl

theorem verify_integrity_applyOp (lg : AuditLogger) (i : Nat) (op : AuditOp)
    (h : lg.verify_integrity i = true) : (lg.applyOp op).verify_integrity i = true := by
  cases op with
  | updateOutcome now rid outcome notes =>
      simp only [AuditLogger.applyOp, AuditLogger.update_outcome]
      cases hget : alistGet? rid lg.records with
      | none => simpa using h
      | some r =>
          simp only [AuditLogger.verify_integrity] at h ⊢
          by_cases hi : i = rid
          · subst hi
            rw [alistGet?_update_self]
            rw [hget] at h
            simpa [DecisionRecord.compute_hash] using h
          · rw [alistGet?_update_ne _ _ _ _ hi]
            exact h
  | addApproval rid approver =>
      simp only [AuditLogger.applyOp, AuditLogger.add_approval]
      cases hget : alistGet? rid lg.records with
      | none => simpa using h
      | some r =>
          simp only [AuditLogger.verify_integrity] at h ⊢
          by_cases hi : i = rid
          · subst hi
            rw [alistGet?_update_self]
            rw [hget] at h
            by_cases hap : approver ∈ r.obtained_approvals
            · simpa [hap] using h
            · simpa [hap, DecisionRecord.compute_hash] using h
          · rw [alistGet?_update_ne _ _ _ _ hi]
            exact h

theorem verify_integrity_applyOps (lg : AuditLogger) (i : Nat) (ops : List AuditOp)
    (h : lg.verify_integrity i = true) : (lg.applyOps ops).verify_integrity i = true := by
  induction ops generalizing lg with
  | nil => exact h
  | cons op rest ih =>
      exact ih (lg.applyOp op) (verify_integrity_applyOp lg i op h)

theorem log_decision_hash (lg : AuditLogger) (now : Nat) (a : LogDecisionArgs) :
    (lg.log_decision now a).2.hash = some ((lg.log_decision now a).2.compute_hash) := rfl

theorem log_decision_records (lg : AuditLogger) (now : Nat) (a : LogDecisionArgs) :
    (lg.log_decision now a).1.records
      = alistUpdate (lg.log_decision now a).2.id (lg.log_decision now a).2 lg.records := rfl

theorem detectBudgetConflict_type (outputs : List (String × CRAgentOutput))
    (ctx : CompanyContext) (c : Conflict) (h : detectBudgetConflict outputs ctx = some c) :
    c.conflict_type = ConflictType.budget_overallocation := by
  unfold detectBudgetConflict at h
  simp only at h
  split at h
  · exact Option.noConfusion h
  · injection h with h
    subst h
    rfl

theorem detectTimelineConflict_type (outputs : List (String × CRAgentOutput))
    (c : Conflict) (h : detectTimelineConflict outputs = some c) :
    c.conflict_type = ConflictType.timeline_conflict := by
  unfold detectTimelineConflict at h
  simp only at h
  split at h
  · exact Option.noConfusion h
  · injection h with h
    subst h
    rfl

theorem detectResourceContention_type (outputs : List (String × CRAgentOutput))
    (c : Conflict) (h : detectResourceContention outputs = some c) :
    c.conflict_type = ConflictType.resource_contention := by
  unfold detectResourceContention at h
  simp only at h
  split at h
  · exact Option.noConfusion h
  · injection h with h
    subst h
    rfl

theorem detectStrategicMisalignment_props (outputs : List (String × CRAgentOutput))
    (c : Conflict) (h : detectStrategicMisalignment outputs = some c) :
    c.conflict_type = ConflictType.strategic_misalignment ∧ c.severity = "critical" := by
  unfold detectStrategicMisalignment at h
  simp only at h
  split at h
  · exact Option.noConfusion h
  · injection h with h
    subst h
    exact ⟨rfl, rfl⟩

theorem resolveFold_mem_mono (l : List Conflict) :
    ∀ (acc : List Conflict × List (String × Resolution)) (x : Conflict),
      x ∈ acc.1 → x ∈ (l.foldl resolveStep acc).1 := by
  induction l with
  | nil => intro acc x hx; exact hx
  | cons c rest ih =>
      intro acc x hx
      rw [List.foldl_cons]
      apply ih
      unfold resolveStep
      cases hres : resolverFor c.conflict_type with
      | none => exact List.mem_append_left _ hx
      | some f =>
          simp only
          split
          · exact hx
          · exact List.mem_append_left _ hx

theorem resolveFold_keeps_strategic (c : Conflict)
    (ht : c.conflict_type = ConflictType.strategic_misalignment) :
    ∀ (l : List Conflict) (acc : List Conflict × List (String × Resolution)),
      c ∈ l →
        ∃ c', c' ∈ (l.foldl resolveStep acc).1
          ∧ c'.conflict_type = ConflictType.strategic_misalignment
          ∧ c'.severity = c.severity := by
  intro l
  induction l with
  | nil => intro acc h; exact absurd h (List.not_mem_nil c)
  | cons c₀ rest ih =>
      intro acc hmem
      rw [List.foldl_cons]
      rcases List.mem_cons.mp hmem with h | h
      · subst h
        refine ⟨{ c with resolution := some (resolveStrategicConflict c).description,
                         resolution_details := some (resolveStrategicConflict c) },
                resolveFold_mem_mono rest _ _ ?_, ht, rfl⟩
        have hstep : (resolveStep acc c).1
            = acc.1 ++ [{ c with resolution := some (resolveStrategicConflict c).description,
                                 resolution_details := some (resolveStrategicConflict c) }] := by
          simp [resolveStep, ht, resolverFor, resolveStrategicConflict]
        rw [hstep]
        exact List.mem_append_right _ (by simp)
      · exact ih (resolveStep acc c₀) h

/-- Strategic-misalignment conflicts are never auto-resolved: any
strategic conflict handed to `resolve_conflicts` reappears (annotated) in
the unresolved set, with its severity preserved. -/
theorem resolve_conflicts_keeps_strategic (conflicts : List Conflict) (c : Conflict)
    (hmem : c ∈ conflicts) (ht : c.conflict_type = ConflictType.strategic_misalignment) :
    ∃ c', c' ∈ (resolve_conflicts conflicts).1
      ∧ c'.conflict_type = ConflictType.strategic_misalignment
      ∧ c'.severity = c.severity :=
  resolveFold_keeps_strategic c ht conflicts ([], []) hmem

/-! ## Theorems -/

/-- C1: evaluation of `update_constraint_usage` on a hard-limited
constraint (limit 100, usage 50) at attempted usage 150. The call returns
failure and stores exactly one new Alert entry, but — because the
assignment `constraint.current_usage = new_usage` precedes the hard-limit
check — the committed usage is 150, not the unchanged 50 the claim
requires. -/
theorem update_constraint_usage_commits_above_limit :
    (c1Result.2 = false)
    ∧ (c1Result.1.alertCount = c1Memory.alertCount + 1)
    ∧ ((c1Result.1.get_constraint "BUDGET-eng").map Constraint.current_usage = some 150)
    ∧ ¬ ((c1Result.1.get_constraint "BUDGET-eng").map Constraint.current_usage = some 50) := by
  decide

/-- C3: evaluation of `request_approval` at the boundary. An amount of
exactly 50000 — the configured budget threshold, hence not strictly below
it — is auto-approved, and an amount of 0 — strictly below the
threshold — is left pending, both contradicting the claim's "auto-approved
iff strictly below". -/
theorem request_approval_boundary_violations :
    (c3AtThreshold.status = ApprovalStatus.auto_approved)
    ∧ ¬ ((50000 : ℚ) < autoApprovalLimit "budget")
    ∧ (c3Zero.status = ApprovalStatus.pending)
    ∧ ((0 : ℚ) < autoApprovalLimit "budget") := by
  decide

/-- C6: evaluation of the approval lifecycle. A pending request is
approved (terminal), then a subsequent `reject` call changes its status
again to rejected — the code has no guard on the current status, so a
terminal transition is not final. -/
theorem approve_then_reject_changes_status :
    ((c6Step1.1.approve c6ReqId "ceo_orchestrator" Option.none).2.map ApprovalRequest.status
      = some ApprovalStatus.approved)
    ∧ ((c6Gov2.findRequest c6ReqId).map ApprovalRequest.status = some ApprovalStatus.approved)
    ∧ ((c6Gov3.findRequest c6ReqId).map ApprovalRequest.status = some ApprovalStatus.rejected) := by
  decide

/-- C7: evaluation of `query` with a minimum-priority filter. The store
holds a single non-expired critical-priority entry and the query asks for
priority at least medium; under the spec's ordering critical is at least
medium, yet the result is empty, because the code compares the enum value
strings lexicographically and "critical" < "medium". -/
theorem query_min_priority_drops_critical_entry :
    (c7Memory.query 1 Option.none Option.none Option.none (some Priority.medium) Option.none = [])
    ∧ (Priority.rank Priority.medium ≤ Priority.rank Priority.critical)
    ∧ (c7Entry.expires_at = Option.none) := by
  with_unfolding_all decide

/-- C5: evaluation of budget-conflict resolution on a detected
overallocation (100 available, 150 requested). The allocation leaves the
only request partially funded, yet the resolution reports
`resolved = True` and `requires_ceo_approval = False` — the loop clamps
`remaining` at zero, so the escalation condition `remaining < 0` can
never hold and no shortfall is reported. -/
theorem budget_shortfall_never_escalated :
    ((detect_conflicts c5Outputs c5Ctx).length = 1)
    ∧ ((resolve_conflicts (detect_conflicts c5Outputs c5Ctx)).1 = [])
    ∧ ((resolve_conflicts (detect_conflicts c5Outputs c5Ctx)).2.resolutions.map
        (fun p => (p.2.resolved, p.2.requires_ceo_approval)) = [(true, some false)])
    ∧ ((resolve_conflicts (detect_conflicts c5Outputs c5Ctx)).2.resolutions.map
        (fun p => p.2.allocation.map AllocEntry.status) = [["partially_funded"]]) := by
  with_unfolding_all decide

/-- C8 counterexample: a pair of outputs declaring opposite polarities on
the CAC lever with the roles swapped relative to the hardcoded check
(marketing "decrease", finance "increase") yields no
strategic-misalignment conflict at all, refuting the claim's "for every
pair ... exactly one". -/
theorem strategic_reversed_polarity_not_detected :
    (detect_conflicts c8RevOutputs c8Ctx).filter
      (fun c => c.conflict_type = ConflictType.strategic_misalignment) = [] := by
  decide

/-- C4 counterexample: with a task list containing a failing sales worker
followed by a healthy marketing worker, `_route_tasks` propagates the
worker's exception instead of recording a degraded output and collecting
the marketing output. -/
theorem route_tasks_aborts_on_failure :
    route_tasks c4Pool [c4FailTask, c4OkTask] SharedMemory.empty 0
      = Except.error (PyError.workerFailure "sales" "boom") := by
  rfl

/-- C2: a freshly logged decision record verifies; it still verifies
after any sequence of `update_outcome` and `add_approval` calls (on any
records); and once the stored record is replaced out of band by one whose
id, timestamp, agent name or decision text differs while the stored hash
is kept, `verify_integrity` returns false. The truncated-SHA-256 digest is
modelled as an injective digest of the hashed fields. -/
theorem audit_verify_integrity_lifecycle (lg : AuditLogger) (now : Nat)
    (a : LogDecisionArgs) (ops : List AuditOp) (r' : DecisionRecord)
    (halter : r'.id ≠ (lg.log_decision now a).2.id
      ∨ r'.timestamp ≠ (lg.log_decision now a).2.timestamp
      ∨ r'.agent_name ≠ (lg.log_decision now a).2.agent_name
      ∨ r'.decision ≠ (lg.log_decision now a).2.decision)
    (hhash : r'.hash = (lg.log_decision now a).2.hash) :
    ((lg.log_decision now a).1.verify_integrity (lg.log_decision now a).2.id = true)
    ∧ (((lg.log_decision now a).1.applyOps ops).verify_integrity
        (lg.log_decision now a).2.id = true)
    ∧ (((lg.log_decision now a).1.tamper (lg.log_decision now a).2.id r').verify_integrity
        (lg.log_decision now a).2.id = false) := by
  have h1 : (lg.log_decision now a).1.verify_integrity (lg.log_decision now a).2.id = true := by
    simp only [AuditLogger.verify_integrity, log_decision_records, alistGet?_update_self]
    simp [log_decision_hash]
  refine ⟨h1, verify_integrity_applyOps _ _ ops h1, ?_⟩
  simp only [AuditLogger.verify_integrity, AuditLogger.tamper, alistGet?_update_self]
  simp only [decide_eq_false_iff_not]
  intro heq
  rw [hhash, log_decision_hash, Option.some.injEq] at heq
  have hfields := congrArg HashDigest.id heq
  have hfields2 := congrArg HashDigest.timestamp heq
  have hfields3 := congrArg HashDigest.agent_name heq
  have hfields4 := congrArg HashDigest.decision heq
  simp only [DecisionRecord.compute_hash] at hfields hfields2 hfields3 hfields4
  rcases halter with h | h | h | h
  · exact h hfields.symm
  · exact h hfields2.symm
  · exact h hfields3.symm
  · exact h hfields4.symm

/-- C2 witness: the lifecycle theorem applied to a concrete logger,
record, op sequence and tampering. -/
theorem audit_verify_integrity_lifecycle_witness :
    ((AuditLogger.empty.log_decision 5 c2Args).1.verify_integrity
        (AuditLogger.empty.log_decision 5 c2Args).2.id = true)
    ∧ (((AuditLogger.empty.log_decision 5 c2Args).1.applyOps c2Ops).verify_integrity
        (AuditLogger.empty.log_decision 5 c2Args).2.id = true)
    ∧ (((AuditLogger.empty.log_decision 5 c2Args).1.tamper
          (AuditLogger.empty.log_decision 5 c2Args).2.id c2Tampered).verify_integrity
        (AuditLogger.empty.log_decision 5 c2Args).2.id = false) :=
  audit_verify_integrity_lifecycle AuditLogger.empty 5 c2Args c2Ops c2Tampered
    (Or.inr (Or.inr (Or.inr (by decide)))) rfl

/-- C9: `should_escalate` escalates exactly when one of the five rules
matches — confidence strictly below 0.60, budget impact strictly above
500000, the requires-policy-change flag, headcount impact strictly above
20, or more than 3 affected departments — the rules are checked in that
fixed order with the first match fixing the reason, and a confidence of
exactly 0.60 never yields the confidence reason. -/
theorem should_escalate_first_match (o : EscalationInput) :
    ((should_escalate o).1 = true ↔
      (o.confidence.getD 1 < 3/5 ∨ 500000 < o.budget_impact.getD 0
        ∨ o.requires_policy_change.getD false = true
        ∨ 20 < o.headcount_impact.getD 0
        ∨ 3 < (o.affected_departments.getD []).length))
    ∧ (o.confidence.getD 1 < 3/5 →
        (should_escalate o).2 = "Confidence below threshold (60%)")
    ∧ (¬ o.confidence.getD 1 < 3/5 → 500000 < o.budget_impact.getD 0 →
        (should_escalate o).2 = "Budget impact exceeds $500K")
    ∧ (¬ o.confidence.getD 1 < 3/5 → ¬ 500000 < o.budget_impact.getD 0 →
        o.requires_policy_change.getD false = true →
        (should_escalate o).2 = "Requires policy change")
    ∧ (¬ o.confidence.getD 1 < 3/5 → ¬ 500000 < o.budget_impact.getD 0 →
        ¬ o.requires_policy_change.getD false = true →
        20 < o.headcount_impact.getD 0 →
        (should_escalate o).2 = "Headcount impact exceeds 20 FTE")
    ∧ (¬ o.confidence.getD 1 < 3/5 → ¬ 500000 < o.budget_impact.getD 0 →
        ¬ o.requires_policy_change.getD false = true →
        ¬ 20 < o.headcount_impact.getD 0 →
        3 < (o.affected_departments.getD []).length →
        (should_escalate o).2 = "Affects more than 3 departments")
    ∧ (¬ (o.confidence.getD 1 < 3/5 ∨ 500000 < o.budget_impact.getD 0
          ∨ o.requires_policy_change.getD false = true
          ∨ 20 < o.headcount_impact.getD 0
          ∨ 3 < (o.affected_departments.getD []).length) →
        should_escalate o = (false, ""))
    ∧ (o.confidence.getD 1 = 3/5 →
        (should_escalate o).2 ≠ "Confidence below threshold (60%)") := by
  simp only [should_escalate]
  split_ifs with h1 h2 h3 h4 h5 <;> simp_all
  all_goals
    intro hc
    rw [hc] at h1
    exact absurd h1 (lt_irrefl _)

/-- C9 witness: the first-match theorem applied at confidence 0.55 (the
spec's scenario) yields escalation with the 60%-threshold reason. -/
theorem should_escalate_first_match_witness :
    (should_escalate c9LowConfidence).2 = "Confidence below threshold (60%)" :=
  (should_escalate_first_match c9LowConfidence).2.1 (by norm_num [c9LowConfidence])

/-- Propagation of a worker error through the `_route_tasks` loop, for
any accumulated outputs and store state. -/
theorem routeTasksAux_error_of_mem (pool : Task → Except PyError AgentOutput)
    (now : Nat) (t : Task) (e : PyError)
    (hagent : t.agent ∈ orchestratorAgentNames) (herr : pool t = Except.error e) :
    ∀ (tasks : List Task) (outs : List (String × WorkerOutputDict)) (m : SharedMemory),
      t ∈ tasks → ∃ e', routeTasksAux pool now tasks outs m = Except.error e' := by
  intro tasks
  induction tasks with
  | nil => intro outs m hmem; exact absurd hmem (List.not_mem_nil t)
  | cons t₀ rest ih =>
      intro outs m hmem
      by_cases hag : t₀.agent ∈ orchestratorAgentNames
      · cases hp : pool t₀ with
        | error e₀ => exact ⟨e₀, by simp [routeTasksAux, hag, hp]⟩
        | ok out =>
            have ht : t ∈ rest := by
              rcases List.mem_cons.mp hmem with h | h
              · subst h; rw [herr] at hp; cases hp
              · exact h
            simpa [routeTasksAux, hag, hp] using ih _ _ ht
      · have ht : t ∈ rest := by
          rcases List.mem_cons.mp hmem with h | h
          · subst h; exact absurd hagent hag
          · exact h
        simpa [routeTasksAux, hag] using ih _ _ ht

/-- C4 (amended): when any task of the directive addresses one of the six
registered workers and that worker's invocation raises, `_route_tasks`
propagates the error — the directive's processing is aborted, no degraded
output is recorded and no aggregation of remaining workers happens. -/
theorem route_tasks_failure_aborts_directive (pool : Task → Except PyError AgentOutput)
    (tasks : List Task) (m : SharedMemory) (now : Nat) (t : Task) (e : PyError)
    (hmem : t ∈ tasks) (hagent : t.agent ∈ orchestratorAgentNames)
    (herr : pool t = Except.error e) :
    ∃ e', route_tasks pool tasks m now = Except.error e' :=
  routeTasksAux_error_of_mem pool now t e hagent herr tasks [] m hmem

/-- C4 witness: the amended theorem applied to the concrete failing pool
and two-task directive. -/
theorem route_tasks_failure_aborts_directive_witness :
    ∃ e', route_tasks c4Pool [c4FailTask, c4OkTask] SharedMemory.empty 0
      = Except.error e' :=
  route_tasks_failure_aborts_directive c4Pool [c4FailTask, c4OkTask] SharedMemory.empty 0
    c4FailTask (PyError.workerFailure "sales" "boom") (by simp) (by decide) rfl

/-- C8 (amended): for the antagonistic pair the code actually checks — a
marketing output declaring cac_direction "increase" against a finance
output declaring cac_direction "decrease" — `detect_conflicts` returns
exactly one strategic-misalignment conflict, it carries severity
critical, and `resolve_conflicts` always leaves a strategic-misalignment
conflict of that severity in the unresolved set. -/
theorem strategic_cac_pair_detected_and_unresolved
    (o₁ o₂ : CRAgentOutput) (ctx : CompanyContext) (s₁ s₂ : Strategy)
    (h₁ : o₁.strategy = some s₁) (h₂ : o₂.strategy = some s₂)
    (hinc : s₁.cac_direction = some "increase")
    (hdec : s₂.cac_direction = some "decrease") :
    ((detect_conflicts [("marketing_agent", o₁), ("finance_agent", o₂)] ctx).filter
        (fun c => c.conflict_type = ConflictType.strategic_misalignment)
      = [c8DetectedConflict])
    ∧ (c8DetectedConflict.severity = "critical")
    ∧ (∃ c', c' ∈ (resolve_conflicts
          (detect_conflicts [("marketing_agent", o₁), ("finance_agent", o₂)] ctx)).1
        ∧ c'.conflict_type = ConflictType.strategic_misalignment
        ∧ c'.severity = "critical") := by
  have hs : strategiesOf [("marketing_agent", o₁), ("finance_agent", o₂)]
      = [("marketing_agent", s₁), ("finance_agent", s₂)] := by
    simp [strategiesOf, h₁, h₂, alistUpdate]
  have hdet : detectStrategicMisalignment [("marketing_agent", o₁), ("finance_agent", o₂)]
      = some c8DetectedConflict := by
    simp [detectStrategicMisalignment, hs, alistGet?, emptyStrategy, hinc, hdec,
      c8DetectedConflict, cacContradiction]
  have hfB : ((detectBudgetConflict [("marketing_agent", o₁), ("finance_agent", o₂)] ctx).toList.filter
      (fun c => c.conflict_type = ConflictType.strategic_misalignment)) = [] := by
    cases hb : detectBudgetConflict [("marketing_agent", o₁), ("finance_agent", o₂)] ctx with
    | none => rfl
    | some cb => simp [List.filter, detectBudgetConflict_type _ _ _ hb]
  have hfT : ((detectTimelineConflict [("marketing_agent", o₁), ("finance_agent", o₂)]).toList.filter
      (fun c => c.conflict_type = ConflictType.strategic_misalignment)) = [] := by
    cases hb : detectTimelineConflict [("marketing_agent", o₁), ("finance_agent", o₂)] with
    | none => rfl
    | some cb => simp [List.filter, detectTimelineConflict_type _ _ hb]
  have hfR : ((detectResourceContention [("marketing_agent", o₁), ("finance_agent", o₂)]).toList.filter
      (fun c => c.conflict_type = ConflictType.strategic_misalignment)) = [] := by
    cases hb : detectResourceContention [("marketing_agent", o₁), ("finance_agent", o₂)] with
    | none => rfl
    | some cb => simp [List.filter, detectResourceContention_type _ _ hb]
  have hfilter : (detect_conflicts [("marketing_agent", o₁), ("finance_agent", o₂)] ctx).filter
      (fun c => c.conflict_type = ConflictType.strategic_misalignment) = [c8DetectedConflict] := by
    simp only [detect_conflicts, List.filter_append, hfB, hfT, hfR, hdet]
    rfl
  refine ⟨hfilter, rfl, ?_⟩
  have hmem : c8DetectedConflict
      ∈ detect_conflicts [("marketing_agent", o₁), ("finance_agent", o₂)] ctx := by
    have : c8DetectedConflict ∈ (detect_conflicts [("marketing_agent", o₁),
        ("finance_agent", o₂)] ctx).filter
        (fun c => c.conflict_type = ConflictType.strategic_misalignment) := by
      rw [hfilter]; simp
    exact List.mem_of_mem_filter this
  exact resolve_conflicts_keeps_strategic _ _ hmem rfl

/-- C8 witness: the amended theorem at the concrete increase/decrease
output pair. -/
theorem strategic_cac_pair_detected_and_unresolved_witness :
    ((detect_conflicts [("marketing_agent", c8MarketingInc), ("finance_agent", c8FinanceDec)]
        c8Ctx).filter
        (fun c => c.conflict_type = ConflictType.strategic_misalignment)
      = [c8DetectedConflict])
    ∧ (c8DetectedConflict.severity = "critical")
    ∧ (∃ c', c' ∈ (resolve_conflicts
          (detect_conflicts [("marketing_agent", c8MarketingInc),
            ("finance_agent", c8FinanceDec)] c8Ctx)).1
        ∧ c'.conflict_type = ConflictType.strategic_misalignment
        ∧ c'.severity = "critical") :=
  strategic_cac_pair_detected_and_unresolved c8MarketingInc c8FinanceDec c8Ctx _ _
    rfl rfl rfl rfl

/-- C10: `process_prompt` raises before producing an `ExecutiveOutput`,
whatever the rest of the pipeline would do: its first statement calls
`self.audit_logger.log(...)`, and `AuditLogger` defines no attribute
named `log` (nor `log_escalation`, called later in `_check_governance`),
while `AuditLevel`, referenced in `_parse_prompt`, is not a name of the
ceo_orchestrator module. -/
theorem process_prompt_never_finalizes
    (rest : String → Except PyError ExecutiveOutput) (prompt : String) :
    (process_prompt rest prompt = Except.error (PyError.attributeError "log"))
    ∧ ("log" ∉ auditLoggerMethodNames) ∧ ("log" ∉ auditLoggerFieldNames)
    ∧ ("log_escalation" ∉ auditLoggerMethodNames)
    ∧ ("log_escalation" ∉ auditLoggerFieldNames)
    ∧ ("AuditLevel" ∉ ceoOrchestratorModuleNames) := by
  refine ⟨rfl, by decide, by decide, by decide, by decide, by decide⟩

end AgenticEnterprise
